import Mathlib

/-!
Shallow embedding of the canopy process family of the Raven hydrological
framework (src/src/VegetationMovers.cpp and VegetationMovers.h): canopy
evaporation, canopy snow sublimation and canopy drip, each with a
rate-computation step (GetRatesOfChange) and a constraint-application step
(ApplyConstraints).  Doubles are embedded as rationals; the C++ in-place
rate arrays are embedded as functions from the index to the value, written
with Function.update; a fatal ExitGracefully call is embedded as the error
case of Except.
-/

/-- Modelled from the spec: the unit-type enum of the spatial unit (HRU) is
declared in RavenInclude.h, which is not part of the excerpted sources; the
spec distinguishes the standard and wetland types, to which the canopy
processes apply, from all other types. -/
inductive HRU_type
  | HRU_STANDARD
  | HRU_WETLAND
  | HRU_LAKE
  | HRU_GLACIER
  | HRU_ROCK
deriving DecidableEq

/-- Models of canopy evaporation (VegetationMovers.h). -/
inductive canevap_type
  | CANEVP_RUTTER
  | CANEVP_MAXIMUM
  | CANEVP_ALL
deriving DecidableEq

/-- Modelled from the spec: the sublimation-model enum is declared in
SnowMovers.h, which is not part of the excerpted sources; the spec lists the
variants Maximum, All and Sverdrup/other wind-driven, and the excerpted code
tests SUBLIM_MAXIMUM, SUBLIM_ALL and SUBLIM_SVERDRUP. -/
inductive sublimation_type
  | SUBLIM_MAXIMUM
  | SUBLIM_ALL
  | SUBLIM_SVERDRUP
  | SUBLIM_KUZMIN
deriving DecidableEq

/-- Models of canopy drip (VegetationMovers.h). -/
inductive candrip_type
  | CANDRIP_RUTTER
  | CANDRIP_SLOWDRAIN
deriving DecidableEq

/-- Exit codes of the fatal-error call ExitGracefully. -/
inductive raven_exit_code
  | BAD_DATA
  | STUB
deriving DecidableEq

/-- A fatal ExitGracefully event: message and exit code. -/
structure RavenExit where
  message : String
  code : raven_exit_code
deriving DecidableEq

/-- Surface properties of the HRU (GetSurfaceProps). -/
structure surface_struct where
  forest_coverage : ℚ
deriving DecidableEq

/-- Seasonally varying vegetation properties of the HRU (GetVegVarProps). -/
structure veg_var_struct where
  capacity : ℚ
deriving DecidableEq

/-- Static vegetation properties of the HRU (GetVegetationProps). -/
structure veg_struct where
  trunk_fraction : ℚ
  stemflow_frac : ℚ
  drip_proportion : ℚ
deriving DecidableEq

/-- Forcing functions of the HRU (GetForcingFunctions). -/
structure force_struct where
  PET : ℚ
  wind_vel : ℚ
deriving DecidableEq

/-- The slice of the HRU interface read by the canopy processes. -/
structure CHydroUnit where
  hru_type : HRU_type
  surface : surface_struct
  vegvar : veg_var_struct
  veg : veg_struct
  forcing : force_struct
deriving DecidableEq

/-- The slice of the global options read by the canopy processes. -/
structure optStruct where
  timestep : ℚ
  suppressCompetitiveET : Bool
deriving DecidableEq

/-- The slice of the model state-variable registry read by the canopy
processes: the indices resolved once at construction by GetStateVarIndex.
The TRUNK index is optional: GetStateVarIndex returns the DOESNT_EXIST
sentinel when the compartment is absent, embedded here as none. -/
structure CModel where
  iCanopy : ℕ
  iCanopySnow : ℕ
  iAtmosphere : ℕ
  iAET : ℕ
  iTrunk : Option ℕ
deriving DecidableEq

/-- Storage clamp of CmvCanopyEvap::GetRatesOfChange, line 123:
min(max(state_vars[iFrom[0]],0),cap*Fc). -/
def clampedCanopyStorage (sv cap Fc : ℚ) : ℚ := min (max sv 0) (cap * Fc)

/-- Denominator of the Rutter saturation ratio, line 136: cap*Fc.  The
source divides by it with no guard against cap = 0. -/
def rutterSatDenom (cap Fc : ℚ) : ℚ := cap * Fc

/-- PET budget of the canopy evaporation and sublimation rate formulas,
lines 122 and 125-129 (evaporation) and lines 301-307 (sublimation):
PET = max(PET,0), then minus AET/timestep and re-clamped to nonnegative
unless competitive ET is suppressed. -/
def canopyPETbudget (Options : optStruct) (PET aet : ℚ) : ℚ :=
  if Options.suppressCompetitiveET then max PET 0
  else max (max PET 0 - aet / Options.timestep) 0

/-- Effective trunk fraction, lines 133-134: GetVegetationProps trunk
fraction, overridden to 0 if the TRUNK compartment is not modeled. -/
def trunkFrac (m : CModel) (pHRU : CHydroUnit) : ℚ :=
  if m.iTrunk = none then 0 else pHRU.veg.trunk_fraction

/-- Effective stemflow fraction of canopy drip, lines 467-469: overridden
to 0 if the TRUNK compartment is not modeled. -/
def stemflowFrac (m : CModel) (pHRU : CHydroUnit) : ℚ :=
  if m.iTrunk = none then 0 else pHRU.veg.stemflow_frac

/-- Modelled from the spec: threshMax is declared in CommonFunctions.cpp,
not part of the excerpted sources; every call site here passes a zero
smoothing coefficient, for which the spec gives the hard maximum. -/
def threshMax (v1 v2 _smooth : ℚ) : ℚ := max v1 v2

/-- Modelled from the spec: threshMin is declared in CommonFunctions.cpp,
not part of the excerpted sources; every call site here passes a zero
smoothing coefficient, for which the spec gives the hard minimum. -/
def threshMin (v1 v2 _smooth : ℚ) : ℚ := min v1 v2

/-- Modelled from the spec: threshPositive is declared in
CommonFunctions.cpp, not part of the excerpted sources; the spec gives the
clamp to nonnegative values. -/
def threshPositive (v : ℚ) : ℚ := max v 0

/-- Writing the rate value into both entries of a two-connection rate
array: rates[0] = r in the algorithm branch and rates[1] = PETused = r
after it (lines 136-137, 141-142, 147-148, 155 of evaporation and the
mirrored sublimation lines). -/
def setRates2 (rates : ℕ → ℚ) (r : ℚ) : ℕ → ℚ :=
  Function.update (Function.update rates 0 r) 1 r

/-- The zero-initialized rate array handed to a process by the integrator. -/
def zeroRates : ℕ → ℚ := fun _ => 0

/-- CmvCanopyEvap::GetRatesOfChange (VegetationMovers.cpp lines 108-156).
Early return on a non-applicable HRU type leaves the rate array untouched;
rates[0] is zeroed, then on zero forest coverage the function returns;
otherwise the variant formula writes rates[0] and rates[1] = PETused, and
an unmatched variant selector exits fatally with a STUB error. -/
def CmvCanopyEvap.GetRatesOfChange (t : canevap_type) (m : CModel)
    (state_vars : ℕ → ℚ) (pHRU : CHydroUnit) (Options : optStruct)
    (rates : ℕ → ℚ) : Except RavenExit (ℕ → ℚ) :=
  if pHRU.hru_type ≠ HRU_type.HRU_STANDARD ∧ pHRU.hru_type ≠ HRU_type.HRU_WETLAND then
    Except.ok rates
  else if pHRU.surface.forest_coverage = 0 then
    Except.ok (Function.update rates 0 0)
  else if t = canevap_type.CANEVP_RUTTER then
    Except.ok (setRates2 rates
      ((1 - trunkFrac m pHRU) * pHRU.surface.forest_coverage *
        canopyPETbudget Options pHRU.forcing.PET (state_vars m.iAET) *
        (clampedCanopyStorage (state_vars m.iCanopy) pHRU.vegvar.capacity
            pHRU.surface.forest_coverage /
          rutterSatDenom pHRU.vegvar.capacity pHRU.surface.forest_coverage)))
  else if t = canevap_type.CANEVP_MAXIMUM then
    Except.ok (setRates2 rates
      (pHRU.surface.forest_coverage *
        canopyPETbudget Options pHRU.forcing.PET (state_vars m.iAET)))
  else if t = canevap_type.CANEVP_ALL then
    Except.ok (setRates2 rates (state_vars m.iCanopy / Options.timestep))
  else
    Except.error ⟨"CmvCanopyEvap: this process not coded yet", raven_exit_code.STUB⟩

/-- CmvCanopyEvap::ApplyConstraints (lines 169-188): on an applicable HRU,
rates[0] is clamped to nonnegative and then to at most the source canopy
storage divided by the timestep, and rates[1] is decremented by the
clamping delta oldRates - rates[0]. -/
def CmvCanopyEvap.ApplyConstraints (m : CModel) (state_vars : ℕ → ℚ)
    (pHRU : CHydroUnit) (Options : optStruct) (rates : ℕ → ℚ) : ℕ → ℚ :=
  if pHRU.hru_type ≠ HRU_type.HRU_STANDARD ∧ pHRU.hru_type ≠ HRU_type.HRU_WETLAND then
    rates
  else
    Function.update
      (Function.update rates 0
        (min (max (rates 0) 0) (state_vars m.iCanopy / Options.timestep)))
      1
      (rates 1 - (rates 0 - min (max (rates 0) 0) (state_vars m.iCanopy / Options.timestep)))

/-- CmvCanopySublimation::GetRatesOfChange (lines 288-329): same
applicability gate and PET budget as evaporation, drawing from canopy-snow
storage; the wind-driven variants exit fatally with a STUB error before
computing any rate. -/
def CmvCanopySublimation.GetRatesOfChange (t : sublimation_type) (m : CModel)
    (state_vars : ℕ → ℚ) (pHRU : CHydroUnit) (Options : optStruct)
    (rates : ℕ → ℚ) : Except RavenExit (ℕ → ℚ) :=
  if pHRU.hru_type ≠ HRU_type.HRU_STANDARD ∧ pHRU.hru_type ≠ HRU_type.HRU_WETLAND then
    Except.ok rates
  else if pHRU.surface.forest_coverage = 0 then
    Except.ok (Function.update rates 0 0)
  else if t = sublimation_type.SUBLIM_MAXIMUM then
    Except.ok (setRates2 rates
      (pHRU.surface.forest_coverage *
        canopyPETbudget Options pHRU.forcing.PET (state_vars m.iAET)))
  else if t = sublimation_type.SUBLIM_ALL then
    Except.ok (setRates2 rates (state_vars m.iCanopySnow / Options.timestep))
  else
    Except.error ⟨"SUBLIMATION CANOPY - must adjust wind velocity", raven_exit_code.STUB⟩

/-- CmvCanopySublimation::ApplyConstraints (lines 341-358): on an
applicable HRU, rates[0] is clamped to at most the canopy-snow storage
divided by the timestep (no lower clamp), and rates[1] is decremented by
the clamping delta. -/
def CmvCanopySublimation.ApplyConstraints (m : CModel) (state_vars : ℕ → ℚ)
    (pHRU : CHydroUnit) (Options : optStruct) (rates : ℕ → ℚ) : ℕ → ℚ :=
  if pHRU.hru_type ≠ HRU_type.HRU_STANDARD ∧ pHRU.hru_type ≠ HRU_type.HRU_WETLAND then
    rates
  else
    Function.update
      (Function.update rates 0
        (min (rates 0) (state_vars m.iCanopySnow / Options.timestep)))
      1
      (rates 1 - (rates 0 - min (rates 0) (state_vars m.iCanopySnow / Options.timestep)))

/-- CmvCanopyDrip::GetRatesOfChange (lines 447-482): Rutter overflow drip
or slow-drain drip from canopy storage; no AET ledger entry (one
connection). -/
def CmvCanopyDrip.GetRatesOfChange (t : candrip_type) (m : CModel)
    (state_vars : ℕ → ℚ) (pHRU : CHydroUnit) (Options : optStruct)
    (rates : ℕ → ℚ) : ℕ → ℚ :=
  if pHRU.hru_type ≠ HRU_type.HRU_STANDARD ∧ pHRU.hru_type ≠ HRU_type.HRU_WETLAND then
    rates
  else if pHRU.surface.forest_coverage = 0 then
    Function.update rates 0 0
  else if t = candrip_type.CANDRIP_RUTTER then
    Function.update rates 0
      ((1 - stemflowFrac m pHRU) *
        threshMax ((state_vars m.iCanopy -
            pHRU.surface.forest_coverage * pHRU.vegvar.capacity) / Options.timestep) 0 0)
  else if t = candrip_type.CANDRIP_SLOWDRAIN then
    Function.update rates 0
      (threshPositive ((state_vars m.iCanopy -
          pHRU.surface.forest_coverage * pHRU.vegvar.capacity) / Options.timestep) +
        threshMin
          (pHRU.veg.drip_proportion *
            (state_vars m.iCanopy / pHRU.surface.forest_coverage))
          (state_vars m.iCanopy / pHRU.surface.forest_coverage / Options.timestep) 0)
  else
    Function.update rates 0 0

/-- CmvCanopyDrip::ApplyConstraints (lines 494-505): on an applicable HRU,
rates[0] is clamped to at most the canopy storage divided by the timestep. -/
def CmvCanopyDrip.ApplyConstraints (m : CModel) (state_vars : ℕ → ℚ)
    (pHRU : CHydroUnit) (Options : optStruct) (rates : ℕ → ℚ) : ℕ → ℚ :=
  if pHRU.hru_type ≠ HRU_type.HRU_STANDARD ∧ pHRU.hru_type ≠ HRU_type.HRU_WETLAND then
    rates
  else
    Function.update rates 0
      (threshMin (rates 0) (state_vars m.iCanopy / Options.timestep) 0)

/-- An evaporative or sublimating process in the per-timestep sequence of
processes competing for the AET ledger. -/
inductive ETProc
  | evap (t : canevap_type)
  | sublim (t : sublimation_type)
deriving DecidableEq

/-- The variants whose rate is scaled from the PET budget: Rutter and
Maximum evaporation and Maximum sublimation.  The ALL variants remove the
entire storage in one step irrespective of the budget, and the wind-driven
sublimation variants are stubs. -/
def etPETScaled : ETProc → Prop
  | ETProc.evap t => t ≠ canevap_type.CANEVP_ALL
  | ETProc.sublim t => t = sublimation_type.SUBLIM_MAXIMUM

/-- The state vector seen by one invocation: the AET slot holds the ledger
accumulated by the earlier processes of the step, every storage slot holds
the invocation-specific source storage. -/
def mkState (m : CModel) (stor aet : ℚ) : ℕ → ℚ :=
  fun i => if i = m.iAET then aet else stor

/-- One invocation of an evaporative/sublimating process within the step:
GetRatesOfChange on a zero-initialized rate array, then ApplyConstraints,
returning the post-constraint AET ledger entry rates[1]. -/
def etStep (m : CModel) (pHRU : CHydroUnit) (Options : optStruct)
    (p : ETProc) (stor aet : ℚ) : Except RavenExit ℚ :=
  match p with
  | ETProc.evap t =>
    (CmvCanopyEvap.GetRatesOfChange t m (mkState m stor aet) pHRU Options zeroRates).map
      (fun r => CmvCanopyEvap.ApplyConstraints m (mkState m stor aet) pHRU Options r 1)
  | ETProc.sublim t =>
    (CmvCanopySublimation.GetRatesOfChange t m (mkState m stor aet) pHRU Options zeroRates).map
      (fun r => CmvCanopySublimation.ApplyConstraints m (mkState m stor aet) pHRU Options r 1)

/-- Modelled from the spec: the time-stepping integrator (an external
collaborator) sequences the processes of one timestep; each process reads
the AET ledger left by the earlier ones, and its post-constraint AET rate,
multiplied by the timestep, is committed to the AET state before the next
process runs.  Returns the sum of the post-constraint AET rate entries. -/
def etRun (m : CModel) (pHRU : CHydroUnit) (Options : optStruct) :
    List (ETProc × ℚ) → ℚ → Except RavenExit ℚ
  | [], _ => Except.ok 0
  | q :: rest, aet =>
    match etStep m pHRU Options q.1 q.2 aet with
    | Except.error e => Except.error e
    | Except.ok r1 =>
      (etRun m pHRU Options rest (aet + r1 * Options.timestep)).map (fun S => r1 + S)

/-- Registry fixture with no TRUNK compartment. -/
def mdl0 : CModel := ⟨0, 1, 2, 3, none⟩

/-- Registry fixture with a TRUNK compartment. -/
def mdl1 : CModel := ⟨0, 1, 2, 3, some 4⟩

/-- Standard HRU fixture of Scenario A: forest coverage 0.6, capacity 5 mm,
PET 4 mm/d. -/
def hruA : CHydroUnit :=
  ⟨HRU_type.HRU_STANDARD, ⟨3/5⟩, ⟨5⟩, ⟨0, 1/5, 1/10⟩, ⟨4, 0⟩⟩

/-- Standard HRU fixture of Scenario C: forest coverage 0.5, capacity 4 mm,
stemflow fraction 0.2. -/
def hruC : CHydroUnit :=
  ⟨HRU_type.HRU_STANDARD, ⟨1/2⟩, ⟨4⟩, ⟨0, 1/5, 1/10⟩, ⟨4, 0⟩⟩

/-- Non-applicable HRU fixture (lake type) with otherwise ordinary
properties. -/
def hruLake : CHydroUnit :=
  ⟨HRU_type.HRU_LAKE, ⟨3/5⟩, ⟨5⟩, ⟨0, 1/5, 1/10⟩, ⟨4, 0⟩⟩

/-- Standard HRU fixture with zero canopy capacity and nonzero coverage. -/
def hruCap0 : CHydroUnit :=
  ⟨HRU_type.HRU_STANDARD, ⟨3/5⟩, ⟨0⟩, ⟨0, 1/5, 1/10⟩, ⟨4, 0⟩⟩

/-- Standard HRU fixture with zero forest coverage. -/
def hruFc0 : CHydroUnit :=
  ⟨HRU_type.HRU_STANDARD, ⟨0⟩, ⟨5⟩, ⟨0, 1/5, 1/10⟩, ⟨4, 0⟩⟩

/-- Options fixture: one-day timestep, competitive ET not suppressed. -/
def optD : optStruct := ⟨1, false⟩

/-- State fixture: canopy storage 2 mm, AET 0. -/
def stA : ℕ → ℚ := fun i => if i = 3 then 0 else 2

/-- State fixture: canopy storage -1 mm (invalid upstream state), AET 0. -/
def stNeg : ℕ → ℚ := fun i => if i = 3 then 0 else -1

/-- State fixture of Scenario C: canopy storage 3 mm, AET 0. -/
def stC : ℕ → ℚ := fun i => if i = 3 then 0 else 3

/-- Rate-array fixture with nonzero prior contents in both entries. -/
def ratesPrior : ℕ → ℚ := fun i => if i = 0 then 7 else 9

/-- Rate-array fixture of Scenario D: unconstrained rate 5 mm/d in both
the flux entry and the AET ledger entry. -/
def ratesD : ℕ → ℚ := fun _ => 5

/-- The applicability gate shared by all canopy processes (lines 114-115,
175-176, 294-295, 347-348, 454-455, 500-501): the HRU type is standard or
wetland. -/
def applicableHRU (pHRU : CHydroUnit) : Prop :=
  pHRU.hru_type = HRU_type.HRU_STANDARD ∨ pHRU.hru_type = HRU_type.HRU_WETLAND

lemma applicableHRU_not_gate (pHRU : CHydroUnit) (happ : applicableHRU pHRU) :
    ¬(pHRU.hru_type ≠ HRU_type.HRU_STANDARD ∧ pHRU.hru_type ≠ HRU_type.HRU_WETLAND) := by
  rcases happ with h | h <;> simp [h]

lemma setRates2_zero (rates : ℕ → ℚ) (r : ℚ) : setRates2 rates r 0 = r := by
  simp [setRates2]

lemma setRates2_one (rates : ℕ → ℚ) (r : ℚ) : setRates2 rates r 1 = r := by
  simp [setRates2]

lemma evap_AC_zero (m : CModel) (state_vars : ℕ → ℚ) (pHRU : CHydroUnit)
    (Options : optStruct) (rates : ℕ → ℚ) (happ : applicableHRU pHRU) :
    CmvCanopyEvap.ApplyConstraints m state_vars pHRU Options rates 0
      = min (max (rates 0) 0) (state_vars m.iCanopy / Options.timestep) := by
  rw [CmvCanopyEvap.ApplyConstraints, if_neg (applicableHRU_not_gate pHRU happ)]
  simp

lemma evap_AC_one (m : CModel) (state_vars : ℕ → ℚ) (pHRU : CHydroUnit)
    (Options : optStruct) (rates : ℕ → ℚ) (happ : applicableHRU pHRU) :
    CmvCanopyEvap.ApplyConstraints m state_vars pHRU Options rates 1
      = rates 1 -
        (rates 0 - min (max (rates 0) 0) (state_vars m.iCanopy / Options.timestep)) := by
  rw [CmvCanopyEvap.ApplyConstraints, if_neg (applicableHRU_not_gate pHRU happ)]
  simp

lemma sublim_AC_zero (m : CModel) (state_vars : ℕ → ℚ) (pHRU : CHydroUnit)
    (Options : optStruct) (rates : ℕ → ℚ) (happ : applicableHRU pHRU) :
    CmvCanopySublimation.ApplyConstraints m state_vars pHRU Options rates 0
      = min (rates 0) (state_vars m.iCanopySnow / Options.timestep) := by
  rw [CmvCanopySublimation.ApplyConstraints, if_neg (applicableHRU_not_gate pHRU happ)]
  simp

lemma sublim_AC_one (m : CModel) (state_vars : ℕ → ℚ) (pHRU : CHydroUnit)
    (Options : optStruct) (rates : ℕ → ℚ) (happ : applicableHRU pHRU) :
    CmvCanopySublimation.ApplyConstraints m state_vars pHRU Options rates 1
      = rates 1 -
        (rates 0 - min (rates 0) (state_vars m.iCanopySnow / Options.timestep)) := by
  rw [CmvCanopySublimation.ApplyConstraints, if_neg (applicableHRU_not_gate pHRU happ)]
  simp

lemma drip_AC_zero (m : CModel) (state_vars : ℕ → ℚ) (pHRU : CHydroUnit)
    (Options : optStruct) (rates : ℕ → ℚ) (happ : applicableHRU pHRU) :
    CmvCanopyDrip.ApplyConstraints m state_vars pHRU Options rates 0
      = min (rates 0) (state_vars m.iCanopy / Options.timestep) := by
  rw [CmvCanopyDrip.ApplyConstraints, if_neg (applicableHRU_not_gate pHRU happ)]
  simp [threshMin]

/-- Claim C1: for every canopy process (evaporation, sublimation, drip),
state vector, applicable HRU, options with positive timestep and input
rate array, the post-constraint rate in entry 0 is at most the source
compartment storage divided by the timestep. -/
theorem C1_no_overdraft (m : CModel) (state_vars : ℕ → ℚ) (pHRU : CHydroUnit)
    (Options : optStruct) (rE rS rD : ℕ → ℚ)
    (happ : applicableHRU pHRU) (_hts : 0 < Options.timestep) :
    CmvCanopyEvap.ApplyConstraints m state_vars pHRU Options rE 0
        ≤ state_vars m.iCanopy / Options.timestep ∧
    CmvCanopySublimation.ApplyConstraints m state_vars pHRU Options rS 0
        ≤ state_vars m.iCanopySnow / Options.timestep ∧
    CmvCanopyDrip.ApplyConstraints m state_vars pHRU Options rD 0
        ≤ state_vars m.iCanopy / Options.timestep := by
  refine ⟨?_, ?_, ?_⟩
  · rw [evap_AC_zero m state_vars pHRU Options rE happ]
    exact min_le_right _ _
  · rw [sublim_AC_zero m state_vars pHRU Options rS happ]
    exact min_le_right _ _
  · rw [drip_AC_zero m state_vars pHRU Options rD happ]
    exact min_le_right _ _

theorem C1_witness :
    CmvCanopyEvap.ApplyConstraints mdl0 stA hruA optD ratesPrior 0
        ≤ stA mdl0.iCanopy / optD.timestep ∧
    CmvCanopySublimation.ApplyConstraints mdl0 stA hruA optD ratesPrior 0
        ≤ stA mdl0.iCanopySnow / optD.timestep ∧
    CmvCanopyDrip.ApplyConstraints mdl0 stA hruA optD ratesPrior 0
        ≤ stA mdl0.iCanopy / optD.timestep :=
  C1_no_overdraft mdl0 stA hruA optD ratesPrior ratesPrior ratesPrior
    (Or.inl rfl) (by decide)

/-- Claim C2 counterexample: for canopy evaporation on an applicable HRU
with negative source storage (canopy storage -1, timestep 1, input rate 1),
the post-constraint rate in entry 0 is -1, which is negative: the upper
clamp min with a negative bound is applied after the lower clamp. -/
theorem C2_counterexample :
    CmvCanopyEvap.ApplyConstraints mdl0 stNeg hruA optD (fun _ => 1) 0 = -1 ∧
    ¬(0 ≤ (-1 : ℚ)) := by
  constructor
  · rw [evap_AC_zero mdl0 stNeg hruA optD (fun _ => 1) (Or.inl rfl)]
    norm_num [stNeg, mdl0, optD, min_def, max_def]
  · decide

/-- Claim C2 amended: post-constraint rates[0] is nonnegative provided the
source storage is nonnegative (canopy evaporation, which has a lower clamp
to 0), respectively provided both the source storage and the input rate
are nonnegative (sublimation and drip, which only clamp from above). -/
theorem C2_amended_nonneg (m : CModel) (state_vars : ℕ → ℚ) (pHRU : CHydroUnit)
    (Options : optStruct) (rE rS rD : ℕ → ℚ)
    (happ : applicableHRU pHRU) (hts : 0 < Options.timestep) :
    (0 ≤ state_vars m.iCanopy →
      0 ≤ CmvCanopyEvap.ApplyConstraints m state_vars pHRU Options rE 0) ∧
    (0 ≤ state_vars m.iCanopySnow → 0 ≤ rS 0 →
      0 ≤ CmvCanopySublimation.ApplyConstraints m state_vars pHRU Options rS 0) ∧
    (0 ≤ state_vars m.iCanopy → 0 ≤ rD 0 →
      0 ≤ CmvCanopyDrip.ApplyConstraints m state_vars pHRU Options rD 0) := by
  refine ⟨?_, ?_, ?_⟩
  · intro hst
    rw [evap_AC_zero m state_vars pHRU Options rE happ]
    exact le_min (le_max_right _ _) (div_nonneg hst hts.le)
  · intro hst hr
    rw [sublim_AC_zero m state_vars pHRU Options rS happ]
    exact le_min hr (div_nonneg hst hts.le)
  · intro hst hr
    rw [drip_AC_zero m state_vars pHRU Options rD happ]
    exact le_min hr (div_nonneg hst hts.le)

theorem C2_witness :
    0 ≤ CmvCanopyEvap.ApplyConstraints mdl0 stA hruA optD ratesD 0 ∧
    0 ≤ CmvCanopySublimation.ApplyConstraints mdl0 stA hruA optD ratesD 0 ∧
    0 ≤ CmvCanopyDrip.ApplyConstraints mdl0 stA hruA optD ratesD 0 :=
  ⟨(C2_amended_nonneg mdl0 stA hruA optD ratesD ratesD ratesD
      (Or.inl rfl) (by decide)).1 (by decide),
   (C2_amended_nonneg mdl0 stA hruA optD ratesD ratesD ratesD
      (Or.inl rfl) (by decide)).2.1 (by decide) (by decide),
   (C2_amended_nonneg mdl0 stA hruA optD ratesD ratesD ratesD
      (Or.inl rfl) (by decide)).2.2 (by decide) (by decide)⟩

/-- Claim C3: for canopy evaporation and canopy sublimation on an
applicable HRU, ApplyConstraints updates the AET ledger entry rates[1] by
exactly the clamping delta, and in particular leaves it unchanged when the
clamp does not change rates[0]. -/
theorem C3_ledger_delta (m : CModel) (state_vars : ℕ → ℚ) (pHRU : CHydroUnit)
    (Options : optStruct) (rE rS : ℕ → ℚ) (happ : applicableHRU pHRU) :
    CmvCanopyEvap.ApplyConstraints m state_vars pHRU Options rE 1
        = rE 1 - (rE 0 - CmvCanopyEvap.ApplyConstraints m state_vars pHRU Options rE 0) ∧
    CmvCanopySublimation.ApplyConstraints m state_vars pHRU Options rS 1
        = rS 1 - (rS 0 - CmvCanopySublimation.ApplyConstraints m state_vars pHRU Options rS 0) ∧
    (CmvCanopyEvap.ApplyConstraints m state_vars pHRU Options rE 0 = rE 0 →
      CmvCanopyEvap.ApplyConstraints m state_vars pHRU Options rE 1 = rE 1) ∧
    (CmvCanopySublimation.ApplyConstraints m state_vars pHRU Options rS 0 = rS 0 →
      CmvCanopySublimation.ApplyConstraints m state_vars pHRU Options rS 1 = rS 1) := by
  have h1 := evap_AC_zero m state_vars pHRU Options rE happ
  have h2 := evap_AC_one m state_vars pHRU Options rE happ
  have h3 := sublim_AC_zero m state_vars pHRU Options rS happ
  have h4 := sublim_AC_one m state_vars pHRU Options rS happ
  refine ⟨by rw [h1, h2], by rw [h3, h4], ?_, ?_⟩
  · intro h
    rw [h1] at h
    rw [h2, h]
    ring
  · intro h
    rw [h3] at h
    rw [h4, h]
    ring

theorem C3_witness :
    CmvCanopyEvap.ApplyConstraints mdl0 stA hruA optD ratesD 1
        = ratesD 1 - (ratesD 0 - CmvCanopyEvap.ApplyConstraints mdl0 stA hruA optD ratesD 0) ∧
    CmvCanopyEvap.ApplyConstraints mdl0 stA hruA optD ratesD 0 = 2 ∧
    CmvCanopyEvap.ApplyConstraints mdl0 stA hruA optD ratesD 1 = ratesD 1 - 3 :=
  ⟨(C3_ledger_delta mdl0 stA hruA optD ratesD ratesD (Or.inl rfl)).1,
   by rw [evap_AC_zero mdl0 stA hruA optD ratesD (Or.inl rfl)]
      norm_num [stA, mdl0, optD, ratesD, min_def, max_def],
   by rw [evap_AC_one mdl0 stA hruA optD ratesD (Or.inl rfl)]
      norm_num [stA, mdl0, optD, ratesD, min_def, max_def]⟩

lemma evap_GRC_rutter (m : CModel) (state_vars : ℕ → ℚ) (pHRU : CHydroUnit)
    (Options : optStruct) (rates : ℕ → ℚ) (happ : applicableHRU pHRU)
    (hFc : pHRU.surface.forest_coverage ≠ 0) :
    CmvCanopyEvap.GetRatesOfChange canevap_type.CANEVP_RUTTER m state_vars pHRU Options rates
      = Except.ok (setRates2 rates
          ((1 - trunkFrac m pHRU) * pHRU.surface.forest_coverage *
            canopyPETbudget Options pHRU.forcing.PET (state_vars m.iAET) *
            (clampedCanopyStorage (state_vars m.iCanopy) pHRU.vegvar.capacity
                pHRU.surface.forest_coverage /
              rutterSatDenom pHRU.vegvar.capacity pHRU.surface.forest_coverage))) := by
  rw [CmvCanopyEvap.GetRatesOfChange, if_neg (applicableHRU_not_gate pHRU happ),
    if_neg hFc, if_pos rfl]

lemma evap_GRC_maximum (m : CModel) (state_vars : ℕ → ℚ) (pHRU : CHydroUnit)
    (Options : optStruct) (rates : ℕ → ℚ) (happ : applicableHRU pHRU)
    (hFc : pHRU.surface.forest_coverage ≠ 0) :
    CmvCanopyEvap.GetRatesOfChange canevap_type.CANEVP_MAXIMUM m state_vars pHRU Options rates
      = Except.ok (setRates2 rates
          (pHRU.surface.forest_coverage *
            canopyPETbudget Options pHRU.forcing.PET (state_vars m.iAET))) := by
  rw [CmvCanopyEvap.GetRatesOfChange, if_neg (applicableHRU_not_gate pHRU happ),
    if_neg hFc, if_neg (by decide), if_pos rfl]

lemma evap_GRC_all (m : CModel) (state_vars : ℕ → ℚ) (pHRU : CHydroUnit)
    (Options : optStruct) (rates : ℕ → ℚ) (happ : applicableHRU pHRU)
    (hFc : pHRU.surface.forest_coverage ≠ 0) :
    CmvCanopyEvap.GetRatesOfChange canevap_type.CANEVP_ALL m state_vars pHRU Options rates
      = Except.ok (setRates2 rates (state_vars m.iCanopy / Options.timestep)) := by
  rw [CmvCanopyEvap.GetRatesOfChange, if_neg (applicableHRU_not_gate pHRU happ),
    if_neg hFc, if_neg (by decide), if_neg (by decide), if_pos rfl]

lemma sublim_GRC_maximum (m : CModel) (state_vars : ℕ → ℚ) (pHRU : CHydroUnit)
    (Options : optStruct) (rates : ℕ → ℚ) (happ : applicableHRU pHRU)
    (hFc : pHRU.surface.forest_coverage ≠ 0) :
    CmvCanopySublimation.GetRatesOfChange sublimation_type.SUBLIM_MAXIMUM m state_vars pHRU
        Options rates
      = Except.ok (setRates2 rates
          (pHRU.surface.forest_coverage *
            canopyPETbudget Options pHRU.forcing.PET (state_vars m.iAET))) := by
  rw [CmvCanopySublimation.GetRatesOfChange, if_neg (applicableHRU_not_gate pHRU happ),
    if_neg hFc, if_pos rfl]

lemma sublim_GRC_all (m : CModel) (state_vars : ℕ → ℚ) (pHRU : CHydroUnit)
    (Options : optStruct) (rates : ℕ → ℚ) (happ : applicableHRU pHRU)
    (hFc : pHRU.surface.forest_coverage ≠ 0) :
    CmvCanopySublimation.GetRatesOfChange sublimation_type.SUBLIM_ALL m state_vars pHRU
        Options rates
      = Except.ok (setRates2 rates (state_vars m.iCanopySnow / Options.timestep)) := by
  rw [CmvCanopySublimation.GetRatesOfChange, if_neg (applicableHRU_not_gate pHRU happ),
    if_neg hFc, if_neg (by decide), if_pos rfl]

lemma sublim_GRC_stub (t : sublimation_type) (m : CModel) (state_vars : ℕ → ℚ)
    (pHRU : CHydroUnit) (Options : optStruct) (rates : ℕ → ℚ)
    (h1 : t ≠ sublimation_type.SUBLIM_MAXIMUM) (h2 : t ≠ sublimation_type.SUBLIM_ALL)
    (happ : applicableHRU pHRU) (hFc : pHRU.surface.forest_coverage ≠ 0) :
    CmvCanopySublimation.GetRatesOfChange t m state_vars pHRU Options rates
      = Except.error ⟨"SUBLIMATION CANOPY - must adjust wind velocity",
          raven_exit_code.STUB⟩ := by
  rw [CmvCanopySublimation.GetRatesOfChange, if_neg (applicableHRU_not_gate pHRU happ),
    if_neg hFc, if_neg h1, if_neg h2]

lemma drip_GRC_rutter (m : CModel) (state_vars : ℕ → ℚ) (pHRU : CHydroUnit)
    (Options : optStruct) (rates : ℕ → ℚ) (happ : applicableHRU pHRU)
    (hFc : pHRU.surface.forest_coverage ≠ 0) :
    CmvCanopyDrip.GetRatesOfChange candrip_type.CANDRIP_RUTTER m state_vars pHRU Options rates
      = Function.update rates 0
          ((1 - stemflowFrac m pHRU) *
            threshMax ((state_vars m.iCanopy -
                pHRU.surface.forest_coverage * pHRU.vegvar.capacity) / Options.timestep) 0 0) := by
  rw [CmvCanopyDrip.GetRatesOfChange, if_neg (applicableHRU_not_gate pHRU happ),
    if_neg hFc, if_pos rfl]

/-- Claim C5: for canopy evaporation with the Rutter variant on an
applicable HRU with positive forest coverage and positive capacity,
GetRatesOfChange writes the rate
(1 - trunkFraction) * Fc * PETbudget * (clampedStorage / (cap * Fc)), with
the storage clamped to the interval from 0 to cap * Fc and the trunk
fraction forced to 0 when no TRUNK compartment is registered. -/
theorem C5_rutter_evap_formula (m : CModel) (state_vars : ℕ → ℚ) (pHRU : CHydroUnit)
    (Options : optStruct) (rates : ℕ → ℚ)
    (happ : applicableHRU pHRU) (hFc : 0 < pHRU.surface.forest_coverage)
    (_hcap : 0 < pHRU.vegvar.capacity) :
    CmvCanopyEvap.GetRatesOfChange canevap_type.CANEVP_RUTTER m state_vars pHRU Options rates
      = Except.ok (setRates2 rates
          ((1 - (if m.iTrunk = none then 0 else pHRU.veg.trunk_fraction)) *
            pHRU.surface.forest_coverage *
            (if Options.suppressCompetitiveET then max pHRU.forcing.PET 0
             else max (max pHRU.forcing.PET 0 - state_vars m.iAET / Options.timestep) 0) *
            (min (max (state_vars m.iCanopy) 0)
                (pHRU.vegvar.capacity * pHRU.surface.forest_coverage) /
              (pHRU.vegvar.capacity * pHRU.surface.forest_coverage)))) := by
  rw [evap_GRC_rutter m state_vars pHRU Options rates happ hFc.ne']
  rfl

theorem C5_witness :
    CmvCanopyEvap.GetRatesOfChange canevap_type.CANEVP_RUTTER mdl0 stA hruA optD zeroRates
      = Except.ok (setRates2 zeroRates
          ((1 - (if mdl0.iTrunk = none then 0 else hruA.veg.trunk_fraction)) *
            hruA.surface.forest_coverage *
            (if optD.suppressCompetitiveET then max hruA.forcing.PET 0
             else max (max hruA.forcing.PET 0 - stA mdl0.iAET / optD.timestep) 0) *
            (min (max (stA mdl0.iCanopy) 0)
                (hruA.vegvar.capacity * hruA.surface.forest_coverage) /
              (hruA.vegvar.capacity * hruA.surface.forest_coverage)))) ∧
    (1 - (if mdl0.iTrunk = none then 0 else hruA.veg.trunk_fraction)) *
        hruA.surface.forest_coverage *
        (if optD.suppressCompetitiveET then max hruA.forcing.PET 0
         else max (max hruA.forcing.PET 0 - stA mdl0.iAET / optD.timestep) 0) *
        (min (max (stA mdl0.iCanopy) 0)
            (hruA.vegvar.capacity * hruA.surface.forest_coverage) /
          (hruA.vegvar.capacity * hruA.surface.forest_coverage)) = 8/5 :=
  ⟨C5_rutter_evap_formula mdl0 stA hruA optD zeroRates (Or.inl rfl) (by norm_num [hruA])
      (by norm_num [hruA]),
   by norm_num [mdl0, stA, hruA, optD, min_def, max_def]⟩

/-- Claim C6: for canopy evaporation and canopy sublimation on an
applicable HRU with positive forest coverage (shown on the Maximum
variants, whose rate is Fc times the budget), the PET budget used by the
rate formula is max(PET,0) when competitive-ET suppression is enabled and
max(max(PET,0) - AET/timestep, 0) when it is disabled, where AET is read
from the state vector. -/
theorem C6_pet_budget (m : CModel) (state_vars : ℕ → ℚ) (pHRU : CHydroUnit)
    (Options : optStruct) (rE rS : ℕ → ℚ)
    (happ : applicableHRU pHRU) (hFc : 0 < pHRU.surface.forest_coverage) :
    CmvCanopyEvap.GetRatesOfChange canevap_type.CANEVP_MAXIMUM m state_vars pHRU Options rE
      = Except.ok (setRates2 rE
          (pHRU.surface.forest_coverage *
            (if Options.suppressCompetitiveET then max pHRU.forcing.PET 0
             else max (max pHRU.forcing.PET 0 - state_vars m.iAET / Options.timestep) 0))) ∧
    CmvCanopySublimation.GetRatesOfChange sublimation_type.SUBLIM_MAXIMUM m state_vars pHRU
        Options rS
      = Except.ok (setRates2 rS
          (pHRU.surface.forest_coverage *
            (if Options.suppressCompetitiveET then max pHRU.forcing.PET 0
             else max (max pHRU.forcing.PET 0 - state_vars m.iAET / Options.timestep) 0))) := by
  constructor
  · rw [evap_GRC_maximum m state_vars pHRU Options rE happ hFc.ne']
    rfl
  · rw [sublim_GRC_maximum m state_vars pHRU Options rS happ hFc.ne']
    rfl

theorem C6_witness :
    CmvCanopyEvap.GetRatesOfChange canevap_type.CANEVP_MAXIMUM mdl0 stA hruA optD zeroRates
      = Except.ok (setRates2 zeroRates
          (hruA.surface.forest_coverage *
            (if optD.suppressCompetitiveET then max hruA.forcing.PET 0
             else max (max hruA.forcing.PET 0 - stA mdl0.iAET / optD.timestep) 0))) ∧
    CmvCanopySublimation.GetRatesOfChange sublimation_type.SUBLIM_MAXIMUM mdl0 stA hruA optD
        zeroRates
      = Except.ok (setRates2 zeroRates
          (hruA.surface.forest_coverage *
            (if optD.suppressCompetitiveET then max hruA.forcing.PET 0
             else max (max hruA.forcing.PET 0 - stA mdl0.iAET / optD.timestep) 0))) :=
  C6_pet_budget mdl0 stA hruA optD zeroRates zeroRates (Or.inl rfl) (by norm_num [hruA])

/-- Claim C7 counterexample: on a non-applicable (lake-type) HRU, canopy
evaporation GetRatesOfChange returns the rate array with its prior
contents untouched; with prior contents 7 and 9 the returned entry 0 is 7,
not 0, so the rates are not all zero regardless of prior contents. -/
theorem C7_counterexample :
    CmvCanopyEvap.GetRatesOfChange canevap_type.CANEVP_RUTTER mdl0 stA hruLake optD ratesPrior
        = Except.ok ratesPrior ∧
    ratesPrior 0 = 7 ∧ (7 : ℚ) ≠ 0 :=
  ⟨rfl, rfl, by decide⟩

/-- Claim C7 amended: on a non-applicable HRU type every canopy process
returns the rate array unchanged (prior contents survive), and on an
applicable HRU with zero forest coverage it writes 0 into entry 0 and
leaves the other entries unchanged; all returned entries are zero only
when the caller hands in a zeroed rate array. -/
theorem C7_amended_rates (t_e : canevap_type) (t_s : sublimation_type) (t_d : candrip_type)
    (m : CModel) (state_vars : ℕ → ℚ) (pHRU : CHydroUnit) (Options : optStruct)
    (rates : ℕ → ℚ) :
    (¬applicableHRU pHRU →
      CmvCanopyEvap.GetRatesOfChange t_e m state_vars pHRU Options rates = Except.ok rates ∧
      CmvCanopySublimation.GetRatesOfChange t_s m state_vars pHRU Options rates
          = Except.ok rates ∧
      CmvCanopyDrip.GetRatesOfChange t_d m state_vars pHRU Options rates = rates) ∧
    (applicableHRU pHRU → pHRU.surface.forest_coverage = 0 →
      CmvCanopyEvap.GetRatesOfChange t_e m state_vars pHRU Options rates
          = Except.ok (Function.update rates 0 0) ∧
      CmvCanopySublimation.GetRatesOfChange t_s m state_vars pHRU Options rates
          = Except.ok (Function.update rates 0 0) ∧
      CmvCanopyDrip.GetRatesOfChange t_d m state_vars pHRU Options rates
          = Function.update rates 0 0) := by
  constructor
  · intro hna
    rw [applicableHRU, not_or] at hna
    refine ⟨?_, ?_, ?_⟩
    · rw [CmvCanopyEvap.GetRatesOfChange, if_pos ⟨hna.1, hna.2⟩]
    · rw [CmvCanopySublimation.GetRatesOfChange, if_pos ⟨hna.1, hna.2⟩]
    · rw [CmvCanopyDrip.GetRatesOfChange, if_pos ⟨hna.1, hna.2⟩]
  · intro happ hFc
    refine ⟨?_, ?_, ?_⟩
    · rw [CmvCanopyEvap.GetRatesOfChange, if_neg (applicableHRU_not_gate pHRU happ), if_pos hFc]
    · rw [CmvCanopySublimation.GetRatesOfChange, if_neg (applicableHRU_not_gate pHRU happ),
        if_pos hFc]
    · rw [CmvCanopyDrip.GetRatesOfChange, if_neg (applicableHRU_not_gate pHRU happ), if_pos hFc]

theorem C7_witness :
    (CmvCanopyEvap.GetRatesOfChange canevap_type.CANEVP_RUTTER mdl0 stA hruLake optD ratesPrior
        = Except.ok ratesPrior ∧
      CmvCanopySublimation.GetRatesOfChange sublimation_type.SUBLIM_MAXIMUM mdl0 stA hruLake
          optD ratesPrior = Except.ok ratesPrior ∧
      CmvCanopyDrip.GetRatesOfChange candrip_type.CANDRIP_RUTTER mdl0 stA hruLake optD
          ratesPrior = ratesPrior) ∧
    (CmvCanopyEvap.GetRatesOfChange canevap_type.CANEVP_RUTTER mdl0 stA hruFc0 optD ratesPrior
        = Except.ok (Function.update ratesPrior 0 0) ∧
      CmvCanopySublimation.GetRatesOfChange sublimation_type.SUBLIM_MAXIMUM mdl0 stA hruFc0
          optD ratesPrior = Except.ok (Function.update ratesPrior 0 0) ∧
      CmvCanopyDrip.GetRatesOfChange candrip_type.CANDRIP_RUTTER mdl0 stA hruFc0 optD
          ratesPrior = Function.update ratesPrior 0 0) :=
  ⟨(C7_amended_rates canevap_type.CANEVP_RUTTER sublimation_type.SUBLIM_MAXIMUM
      candrip_type.CANDRIP_RUTTER mdl0 stA hruLake optD ratesPrior).1
      (by simp [applicableHRU, hruLake]),
   (C7_amended_rates canevap_type.CANEVP_RUTTER sublimation_type.SUBLIM_MAXIMUM
      candrip_type.CANDRIP_RUTTER mdl0 stA hruFc0 optD ratesPrior).2 (Or.inl rfl) rfl⟩

/-- Claim C8: for canopy drip with the Rutter variant on an applicable HRU
with positive forest coverage, GetRatesOfChange writes the rate
(1 - stemflowFraction) * max((storage - Fc * capacity) / timestep, 0),
with the stemflow fraction forced to 0 when no TRUNK compartment is
registered. -/
theorem C8_drip_rutter_formula (m : CModel) (state_vars : ℕ → ℚ) (pHRU : CHydroUnit)
    (Options : optStruct) (rates : ℕ → ℚ)
    (happ : applicableHRU pHRU) (hFc : 0 < pHRU.surface.forest_coverage) :
    CmvCanopyDrip.GetRatesOfChange candrip_type.CANDRIP_RUTTER m state_vars pHRU Options rates
      = Function.update rates 0
          ((1 - (if m.iTrunk = none then 0 else pHRU.veg.stemflow_frac)) *
            max ((state_vars m.iCanopy -
                pHRU.surface.forest_coverage * pHRU.vegvar.capacity) / Options.timestep) 0) := by
  rw [drip_GRC_rutter m state_vars pHRU Options rates happ hFc.ne']
  rfl

theorem C8_witness :
    CmvCanopyDrip.GetRatesOfChange candrip_type.CANDRIP_RUTTER mdl1 stC hruC optD zeroRates
      = Function.update zeroRates 0
          ((1 - (if mdl1.iTrunk = none then 0 else hruC.veg.stemflow_frac)) *
            max ((stC mdl1.iCanopy -
                hruC.surface.forest_coverage * hruC.vegvar.capacity) / optD.timestep) 0) ∧
    (1 - (if mdl1.iTrunk = none then 0 else hruC.veg.stemflow_frac)) *
        max ((stC mdl1.iCanopy -
            hruC.surface.forest_coverage * hruC.vegvar.capacity) / optD.timestep) 0 = 4/5 :=
  ⟨C8_drip_rutter_formula mdl1 stC hruC optD zeroRates (Or.inl rfl) (by norm_num [hruC]),
   by simp only [mdl1, reduceCtorEq, if_false]
      norm_num [stC, hruC, optD, max_def]⟩

/-- Claim C9: every canopy-sublimation selector other than Maximum and All
(the wind-driven variants) makes GetRatesOfChange on an applicable HRU
with positive forest coverage exit fatally with the STUB error instead of
returning a computed rate; and the canopy-evaporation selector type admits
only the three implemented values Rutter, Maximum and All, so no
evaporation selector can reach its stub branch. -/
theorem C9_stub_variants (t : sublimation_type) (m : CModel) (state_vars : ℕ → ℚ)
    (pHRU : CHydroUnit) (Options : optStruct) (rates : ℕ → ℚ)
    (h1 : t ≠ sublimation_type.SUBLIM_MAXIMUM) (h2 : t ≠ sublimation_type.SUBLIM_ALL)
    (happ : applicableHRU pHRU) (hFc : 0 < pHRU.surface.forest_coverage) :
    CmvCanopySublimation.GetRatesOfChange t m state_vars pHRU Options rates
        = Except.error ⟨"SUBLIMATION CANOPY - must adjust wind velocity",
            raven_exit_code.STUB⟩ ∧
    ∀ te : canevap_type, te = canevap_type.CANEVP_RUTTER ∨ te = canevap_type.CANEVP_MAXIMUM ∨
        te = canevap_type.CANEVP_ALL := by
  constructor
  · exact sublim_GRC_stub t m state_vars pHRU Options rates h1 h2 happ hFc.ne'
  · intro te
    cases te
    · exact Or.inl rfl
    · exact Or.inr (Or.inl rfl)
    · exact Or.inr (Or.inr rfl)

theorem C9_witness :
    CmvCanopySublimation.GetRatesOfChange sublimation_type.SUBLIM_SVERDRUP mdl0 stA hruA optD
        zeroRates
      = Except.error ⟨"SUBLIMATION CANOPY - must adjust wind velocity",
          raven_exit_code.STUB⟩ :=
  (C9_stub_variants sublimation_type.SUBLIM_SVERDRUP mdl0 stA hruA optD zeroRates
    (by decide) (by decide) (Or.inl rfl) (by norm_num [hruA])).1

/-- Claim C10: the Rutter canopy-evaporation rate divides by cap * Fc with
no guard on the capacity.  On the concrete applicable input with capacity
0 and forest coverage 3/5 the division is reached with clamped storage 0
and denominator rutterSatDenom 0 (3/5) = 0 (in exact arithmetic the
quotient 0/0; in the C++ double arithmetic the error branch of the
division), and positivity of both the capacity and the coverage is exactly
what makes the denominator nonzero, so capacity > 0 is a silent
precondition of the formula. -/
theorem C10_rutter_division_guard :
    (clampedCanopyStorage (stA mdl0.iCanopy) hruCap0.vegvar.capacity
        hruCap0.surface.forest_coverage = 0 ∧
      rutterSatDenom hruCap0.vegvar.capacity hruCap0.surface.forest_coverage = 0 ∧
      CmvCanopyEvap.GetRatesOfChange canevap_type.CANEVP_RUTTER mdl0 stA hruCap0 optD zeroRates
        = Except.ok (setRates2 zeroRates
            ((1 - trunkFrac mdl0 hruCap0) * hruCap0.surface.forest_coverage *
              canopyPETbudget optD hruCap0.forcing.PET (stA mdl0.iAET) *
              (clampedCanopyStorage (stA mdl0.iCanopy) hruCap0.vegvar.capacity
                  hruCap0.surface.forest_coverage /
                rutterSatDenom hruCap0.vegvar.capacity hruCap0.surface.forest_coverage)))) ∧
    ∀ cap Fc : ℚ, 0 < cap → 0 < Fc → rutterSatDenom cap Fc ≠ 0 := by
  refine ⟨⟨?_, ?_, ?_⟩, ?_⟩
  · norm_num [clampedCanopyStorage, stA, mdl0, hruCap0, min_def, max_def]
  · norm_num [rutterSatDenom, hruCap0]
  · exact evap_GRC_rutter mdl0 stA hruCap0 optD zeroRates (Or.inl rfl) (by norm_num [hruCap0])
  · intro cap Fc hc hf
    rw [rutterSatDenom]
    exact mul_ne_zero hc.ne' hf.ne'

theorem C10_witness : rutterSatDenom 1 1 ≠ 0 :=
  C10_rutter_division_guard.2 1 1 one_pos one_pos

lemma etStep_evap_of_GRC (m : CModel) (pHRU : CHydroUnit) (Options : optStruct)
    (t : canevap_type) (stor aet v : ℚ) (happ : applicableHRU pHRU)
    (hg : CmvCanopyEvap.GetRatesOfChange t m (mkState m stor aet) pHRU Options zeroRates
      = Except.ok (setRates2 zeroRates v)) :
    etStep m pHRU Options (ETProc.evap t) stor aet
      = Except.ok (min (max v 0) (mkState m stor aet m.iCanopy / Options.timestep)) := by
  simp only [etStep]
  rw [hg]
  simp only [Except.map]
  rw [evap_AC_one m (mkState m stor aet) pHRU Options (setRates2 zeroRates v) happ,
    setRates2_zero, setRates2_one, sub_sub_cancel]

lemma etStep_evap_Fc0 (m : CModel) (pHRU : CHydroUnit) (Options : optStruct)
    (t : canevap_type) (stor aet : ℚ) (happ : applicableHRU pHRU)
    (hFc : pHRU.surface.forest_coverage = 0) :
    etStep m pHRU Options (ETProc.evap t) stor aet
      = Except.ok (min 0 (mkState m stor aet m.iCanopy / Options.timestep)) := by
  simp only [etStep]
  rw [CmvCanopyEvap.GetRatesOfChange, if_neg (applicableHRU_not_gate pHRU happ), if_pos hFc]
  simp only [Except.map]
  rw [evap_AC_one m (mkState m stor aet) pHRU Options (Function.update zeroRates 0 0) happ]
  simp [zeroRates, Function.update]

lemma etStep_sublim_of_GRC (m : CModel) (pHRU : CHydroUnit) (Options : optStruct)
    (t : sublimation_type) (stor aet v : ℚ) (happ : applicableHRU pHRU)
    (hg : CmvCanopySublimation.GetRatesOfChange t m (mkState m stor aet) pHRU Options zeroRates
      = Except.ok (setRates2 zeroRates v)) :
    etStep m pHRU Options (ETProc.sublim t) stor aet
      = Except.ok (min v (mkState m stor aet m.iCanopySnow / Options.timestep)) := by
  simp only [etStep]
  rw [hg]
  simp only [Except.map]
  rw [sublim_AC_one m (mkState m stor aet) pHRU Options (setRates2 zeroRates v) happ,
    setRates2_zero, setRates2_one, sub_sub_cancel]

lemma etStep_sublim_Fc0 (m : CModel) (pHRU : CHydroUnit) (Options : optStruct)
    (t : sublimation_type) (stor aet : ℚ) (happ : applicableHRU pHRU)
    (hFc : pHRU.surface.forest_coverage = 0) :
    etStep m pHRU Options (ETProc.sublim t) stor aet
      = Except.ok (min 0 (mkState m stor aet m.iCanopySnow / Options.timestep)) := by
  simp only [etStep]
  rw [CmvCanopySublimation.GetRatesOfChange, if_neg (applicableHRU_not_gate pHRU happ),
    if_pos hFc]
  simp only [Except.map]
  rw [sublim_AC_one m (mkState m stor aet) pHRU Options (Function.update zeroRates 0 0) happ]
  simp [zeroRates, Function.update]

lemma mkState_AET (m : CModel) (stor aet : ℚ) : mkState m stor aet m.iAET = aet := by
  simp [mkState]

lemma mkState_canopy (m : CModel) (stor aet : ℚ) (hm1 : m.iCanopy ≠ m.iAET) :
    mkState m stor aet m.iCanopy = stor := by
  simp [mkState, hm1]

lemma mkState_canopySnow (m : CModel) (stor aet : ℚ) (hm2 : m.iCanopySnow ≠ m.iAET) :
    mkState m stor aet m.iCanopySnow = stor := by
  simp [mkState, hm2]

lemma trunkFrac_mem (m : CModel) (pHRU : CHydroUnit)
    (hFt0 : 0 ≤ pHRU.veg.trunk_fraction) (hFt1 : pHRU.veg.trunk_fraction ≤ 1) :
    0 ≤ trunkFrac m pHRU ∧ trunkFrac m pHRU ≤ 1 := by
  rw [trunkFrac]
  split
  · exact ⟨le_refl 0, zero_le_one⟩
  · exact ⟨hFt0, hFt1⟩

lemma etStep_bound (m : CModel) (pHRU : CHydroUnit) (Options : optStruct)
    (p : ETProc) (stor aet r1 : ℚ)
    (_hm1 : m.iCanopy ≠ m.iAET) (_hm2 : m.iCanopySnow ≠ m.iAET)
    (happ : applicableHRU pHRU)
    (hsup : Options.suppressCompetitiveET = false)
    (_hts : 0 < Options.timestep)
    (hFc0 : 0 ≤ pHRU.surface.forest_coverage) (hFc1 : pHRU.surface.forest_coverage ≤ 1)
    (hFt0 : 0 ≤ pHRU.veg.trunk_fraction) (hFt1 : pHRU.veg.trunk_fraction ≤ 1)
    (hcap : 0 < pHRU.vegvar.capacity)
    (hp : etPETScaled p)
    (h : etStep m pHRU Options p stor aet = Except.ok r1) :
    r1 ≤ max (max pHRU.forcing.PET 0 - aet / Options.timestep) 0 := by
  have hBnn : (0:ℚ) ≤ max (max pHRU.forcing.PET 0 - aet / Options.timestep) 0 :=
    le_max_right _ _
  have hbud : canopyPETbudget Options pHRU.forcing.PET (mkState m stor aet m.iAET)
      = max (max pHRU.forcing.PET 0 - aet / Options.timestep) 0 := by
    rw [mkState_AET, canopyPETbudget, hsup]
    simp
  cases p with
  | evap t =>
    by_cases hFcz : pHRU.surface.forest_coverage = 0
    · rw [etStep_evap_Fc0 m pHRU Options t stor aet happ hFcz] at h
      have hr := (Except.ok.inj h).symm
      rw [hr]
      exact le_trans (min_le_left _ _) hBnn
    · have hFcpos : 0 < pHRU.surface.forest_coverage := lt_of_le_of_ne hFc0 (Ne.symm hFcz)
      cases t with
      | CANEVP_RUTTER =>
        rw [etStep_evap_of_GRC m pHRU Options canevap_type.CANEVP_RUTTER stor aet _ happ
          (evap_GRC_rutter m (mkState m stor aet) pHRU Options zeroRates happ hFcz)] at h
        have hr := (Except.ok.inj h).symm
        have ha := trunkFrac_mem m pHRU hFt0 hFt1
        have ha0 : (0:ℚ) ≤ 1 - trunkFrac m pHRU := by linarith [ha.2]
        have ha1 : 1 - trunkFrac m pHRU ≤ 1 := by linarith [ha.1]
        have hd : 0 < rutterSatDenom pHRU.vegvar.capacity pHRU.surface.forest_coverage :=
          mul_pos hcap hFcpos
        have hcl0 : 0 ≤ clampedCanopyStorage (mkState m stor aet m.iCanopy)
            pHRU.vegvar.capacity pHRU.surface.forest_coverage :=
          le_min (le_max_right _ _) hd.le
        have hcl1 : clampedCanopyStorage (mkState m stor aet m.iCanopy)
              pHRU.vegvar.capacity pHRU.surface.forest_coverage
            ≤ rutterSatDenom pHRU.vegvar.capacity pHRU.surface.forest_coverage :=
          min_le_right _ _
        have hc0 : 0 ≤ clampedCanopyStorage (mkState m stor aet m.iCanopy)
              pHRU.vegvar.capacity pHRU.surface.forest_coverage /
            rutterSatDenom pHRU.vegvar.capacity pHRU.surface.forest_coverage :=
          div_nonneg hcl0 hd.le
        have hc1 : clampedCanopyStorage (mkState m stor aet m.iCanopy)
              pHRU.vegvar.capacity pHRU.surface.forest_coverage /
            rutterSatDenom pHRU.vegvar.capacity pHRU.surface.forest_coverage ≤ 1 :=
          (div_le_one hd).mpr hcl1
        rw [hbud] at hr
        have hab : (1 - trunkFrac m pHRU) * pHRU.surface.forest_coverage ≤ 1 :=
          mul_le_one₀ ha1 hFc0 hFc1
        have habnn : 0 ≤ (1 - trunkFrac m pHRU) * pHRU.surface.forest_coverage :=
          mul_nonneg ha0 hFc0
        have habB : (1 - trunkFrac m pHRU) * pHRU.surface.forest_coverage *
              (max (max pHRU.forcing.PET 0 - aet / Options.timestep) 0)
            ≤ max (max pHRU.forcing.PET 0 - aet / Options.timestep) 0 :=
          mul_le_of_le_one_left hBnn hab
        have habBnn : 0 ≤ (1 - trunkFrac m pHRU) * pHRU.surface.forest_coverage *
            (max (max pHRU.forcing.PET 0 - aet / Options.timestep) 0) :=
          mul_nonneg habnn hBnn
        have hvB : (1 - trunkFrac m pHRU) * pHRU.surface.forest_coverage *
              (max (max pHRU.forcing.PET 0 - aet / Options.timestep) 0) *
              (clampedCanopyStorage (mkState m stor aet m.iCanopy)
                  pHRU.vegvar.capacity pHRU.surface.forest_coverage /
                rutterSatDenom pHRU.vegvar.capacity pHRU.surface.forest_coverage)
            ≤ max (max pHRU.forcing.PET 0 - aet / Options.timestep) 0 :=
          le_trans (mul_le_of_le_one_right habBnn hc1) habB
        rw [hr]
        exact le_trans (min_le_left _ _) (max_le hvB hBnn)
      | CANEVP_MAXIMUM =>
        rw [etStep_evap_of_GRC m pHRU Options canevap_type.CANEVP_MAXIMUM stor aet _ happ
          (evap_GRC_maximum m (mkState m stor aet) pHRU Options zeroRates happ hFcz)] at h
        have hr := (Except.ok.inj h).symm
        rw [hbud] at hr
        have hvB : pHRU.surface.forest_coverage *
              (max (max pHRU.forcing.PET 0 - aet / Options.timestep) 0)
            ≤ max (max pHRU.forcing.PET 0 - aet / Options.timestep) 0 :=
          mul_le_of_le_one_left hBnn hFc1
        rw [hr]
        exact le_trans (min_le_left _ _) (max_le hvB hBnn)
      | CANEVP_ALL => exact absurd rfl hp
  | sublim t =>
    have ht : t = sublimation_type.SUBLIM_MAXIMUM := hp
    subst ht
    by_cases hFcz : pHRU.surface.forest_coverage = 0
    · rw [etStep_sublim_Fc0 m pHRU Options sublimation_type.SUBLIM_MAXIMUM stor aet happ
        hFcz] at h
      have hr := (Except.ok.inj h).symm
      rw [hr]
      exact le_trans (min_le_left _ _) hBnn
    · rw [etStep_sublim_of_GRC m pHRU Options sublimation_type.SUBLIM_MAXIMUM stor aet _ happ
        (sublim_GRC_maximum m (mkState m stor aet) pHRU Options zeroRates happ hFcz)] at h
      have hr := (Except.ok.inj h).symm
      rw [hbud] at hr
      have hvB : pHRU.surface.forest_coverage *
            (max (max pHRU.forcing.PET 0 - aet / Options.timestep) 0)
          ≤ max (max pHRU.forcing.PET 0 - aet / Options.timestep) 0 :=
        mul_le_of_le_one_left hBnn hFc1
      rw [hr]
      exact le_trans (min_le_left _ _) hvB

lemma etRun_bound (m : CModel) (pHRU : CHydroUnit) (Options : optStruct)
    (hm1 : m.iCanopy ≠ m.iAET) (hm2 : m.iCanopySnow ≠ m.iAET)
    (happ : applicableHRU pHRU)
    (hsup : Options.suppressCompetitiveET = false)
    (hts : 0 < Options.timestep)
    (hFc0 : 0 ≤ pHRU.surface.forest_coverage) (hFc1 : pHRU.surface.forest_coverage ≤ 1)
    (hFt0 : 0 ≤ pHRU.veg.trunk_fraction) (hFt1 : pHRU.veg.trunk_fraction ≤ 1)
    (hcap : 0 < pHRU.vegvar.capacity) :
    ∀ L : List (ETProc × ℚ), (∀ q ∈ L, etPETScaled q.1) → ∀ aet S : ℚ,
      etRun m pHRU Options L aet = Except.ok S →
      S ≤ max (max pHRU.forcing.PET 0 - aet / Options.timestep) 0 := by
  intro L
  induction L with
  | nil =>
    intro _ aet S h
    rw [etRun] at h
    rw [← Except.ok.inj h]
    exact le_max_right _ _
  | cons q rest ih =>
    intro hall aet S h
    rw [etRun] at h
    cases hstep : etStep m pHRU Options q.1 q.2 aet with
    | error e => rw [hstep] at h; exact absurd h (by simp)
    | ok r1 =>
      rw [hstep] at h
      simp only at h
      cases hrun : etRun m pHRU Options rest (aet + r1 * Options.timestep) with
      | error e => rw [hrun] at h; exact absurd h (by simp [Except.map])
      | ok S2 =>
        rw [hrun] at h
        simp only [Except.map] at h
        have hS : r1 + S2 = S := Except.ok.inj h
        have hr1 := etStep_bound m pHRU Options q.1 q.2 aet r1 hm1 hm2 happ hsup hts
          hFc0 hFc1 hFt0 hFt1 hcap (hall q (List.mem_cons_self q rest)) hstep
        have hS2 := ih (fun x hx => hall x (List.mem_cons_of_mem q hx))
          (aet + r1 * Options.timestep) S2 hrun
        have hdiv : (aet + r1 * Options.timestep) / Options.timestep
            = aet / Options.timestep + r1 := by
          field_simp
        rw [hdiv] at hS2
        rw [← hS]
        rcases le_or_lt (max pHRU.forcing.PET 0 - aet / Options.timestep - r1) 0 with hd | hd
        · have h2 : S2 ≤ 0 := by
            have : max pHRU.forcing.PET 0 - (aet / Options.timestep + r1)
                = max pHRU.forcing.PET 0 - aet / Options.timestep - r1 := by ring
            rw [this, max_eq_right hd] at hS2
            exact hS2
          linarith
        · have h2 : S2 ≤ max pHRU.forcing.PET 0 - aet / Options.timestep - r1 := by
            have : max pHRU.forcing.PET 0 - (aet / Options.timestep + r1)
                = max pHRU.forcing.PET 0 - aet / Options.timestep - r1 := by ring
            rw [this, max_eq_left hd.le] at hS2
            exact hS2
          have h3 : r1 + S2 ≤ max pHRU.forcing.PET 0 - aet / Options.timestep := by linarith
          exact le_trans h3 (le_max_left _ _)

/-- Claim C4 counterexample: a single invocation of the ALL-variant canopy
evaporation (entire storage removed within the step) with PET 4 mm/d,
storage 10 mm, timestep 1 d, suppression disabled and AET starting at 0
records a post-constraint AET consumption of 10 mm/d, exceeding the step
potential max(PET,0) = 4. -/
theorem C4_counterexample :
    etRun mdl0 hruA optD [(ETProc.evap canevap_type.CANEVP_ALL, 10)] 0 = Except.ok (10 + 0) ∧
    ¬((10 + 0 : ℚ) ≤ max hruA.forcing.PET 0) := by
  constructor
  · have hstep : etStep mdl0 hruA optD (ETProc.evap canevap_type.CANEVP_ALL) 10 0
        = Except.ok 10 := by
      rw [etStep_evap_of_GRC mdl0 hruA optD canevap_type.CANEVP_ALL 10 0
        (mkState mdl0 10 0 mdl0.iCanopy / optD.timestep) (Or.inl rfl)
        (evap_GRC_all mdl0 (mkState mdl0 10 0) hruA optD zeroRates (Or.inl rfl)
          (by norm_num [hruA]))]
      norm_num [mkState, mdl0, optD, min_def, max_def]
    rw [etRun, hstep]
    simp only
    rw [etRun]
    rfl
  · norm_num [hruA, max_def]

/-- Claim C4 amended: for every ordered sequence of evaporative and
sublimating invocations within one timestep (each reading the AET
accumulated by the earlier ones), with competitive-ET suppression disabled
and AET starting at 0, the sum of the post-constraint AET consumptions
never exceeds the step potential max(PET,0), provided every invocation
uses a PET-scaled variant (Rutter evaporation with positive capacity and
trunk fraction in the unit interval, or Maximum evaporation/sublimation)
and the forest coverage lies in the unit interval; the ALL variants remove
the entire storage irrespective of the PET budget and can exceed it. -/
theorem C4_amended_ledger (m : CModel) (pHRU : CHydroUnit) (Options : optStruct)
    (hm1 : m.iCanopy ≠ m.iAET) (hm2 : m.iCanopySnow ≠ m.iAET)
    (happ : applicableHRU pHRU)
    (hsup : Options.suppressCompetitiveET = false)
    (hts : 0 < Options.timestep)
    (hFc0 : 0 ≤ pHRU.surface.forest_coverage) (hFc1 : pHRU.surface.forest_coverage ≤ 1)
    (hFt0 : 0 ≤ pHRU.veg.trunk_fraction) (hFt1 : pHRU.veg.trunk_fraction ≤ 1)
    (hcap : 0 < pHRU.vegvar.capacity)
    (L : List (ETProc × ℚ)) (hall : ∀ q ∈ L, etPETScaled q.1) (S : ℚ)
    (h : etRun m pHRU Options L 0 = Except.ok S) :
    S ≤ max pHRU.forcing.PET 0 := by
  have hb := etRun_bound m pHRU Options hm1 hm2 happ hsup hts hFc0 hFc1 hFt0 hFt1 hcap
    L hall 0 S h
  rwa [zero_div, sub_zero, max_eq_left (le_max_right _ _)] at hb

theorem C4_witness : (12/5 + 0 : ℚ) ≤ max hruA.forcing.PET 0 :=
  C4_amended_ledger mdl0 hruA optD (by decide) (by decide) (Or.inl rfl) rfl (by decide)
    (by norm_num [hruA]) (by norm_num [hruA]) (by norm_num [hruA]) (by norm_num [hruA])
    (by norm_num [hruA])
    [(ETProc.sublim sublimation_type.SUBLIM_MAXIMUM, 5)]
    (by
      intro q hq
      rw [List.mem_singleton] at hq
      subst hq
      rfl)
    (12/5 + 0)
    (by
      have hstep : etStep mdl0 hruA optD (ETProc.sublim sublimation_type.SUBLIM_MAXIMUM) 5 0
          = Except.ok (12/5) := by
        rw [etStep_sublim_of_GRC mdl0 hruA optD sublimation_type.SUBLIM_MAXIMUM 5 0
          (hruA.surface.forest_coverage *
            canopyPETbudget optD hruA.forcing.PET (mkState mdl0 5 0 mdl0.iAET)) (Or.inl rfl)
          (sublim_GRC_maximum mdl0 (mkState mdl0 5 0) hruA optD zeroRates (Or.inl rfl)
            (by norm_num [hruA]))]
        norm_num [mkState, mdl0, optD, hruA, canopyPETbudget, min_def, max_def]
      rw [etRun, hstep]
      simp only
      rw [etRun]
      rfl)
